import Mathlib

/-!
Verification of the multichannel wrapper layer of `pyolib/trigger.py`:
the six trigger units `TrigRand`, `TrigChoice`, `TrigFunc`, `TrigEnv`,
`Counter` and `Select`.  Each Python class stores its constructor
arguments as attributes, resolves a channel count through the core's
argument broadcaster and builds one base object per channel; parameter
setters re-dispatch index-wrapped values to the existing base objects.
The core helpers (`convertArgsToLists`, `wrap`, `InputFader`) live in the
`_core` module, which is outside the verified source; they are modelled
here from the specification of the channel broadcaster and of the input
crossfader.  Base objects are modelled as records of the values the
wrapper hands them: the wrapper layer never inspects these values, so
they are kept abstract (opaque type parameters).
-/

namespace PyoTrigger

/-- A Python constructor argument at the wrapper level: either a bare
(scalar) value or a list of per-channel values. -/
inductive Arg (α : Type) where
  | scalar : α → Arg α
  | list : List α → Arg α
deriving DecidableEq

/-- Modelled from the spec: the list-conversion half of the channel
broadcaster (`convertArgsToLists` in the missing `_core`): a bare value
becomes a one-element list, a list is kept as it is. -/
def Arg.toList {α : Type} : Arg α → List α
  | .scalar a => [a]
  | .list l => l

/-- Modelled from the spec: the resolved channel count of the channel
broadcaster — the maximum length over the converted argument lists. -/
def lmaxOf (ls : List Nat) : Nat := ls.foldr Nat.max 0

/-- Modelled from the spec: index-wrap broadcast (`wrap` in the missing
`_core`): channel `i` of a parameter list reads the element at index
`i` modulo the list's own length.  (On the empty list, which the
broadcast convention does not sanction, it falls back to a default.) -/
def wrap {α : Type} [Inhabited α] (l : List α) (i : Nat) : α :=
  l.getD (i % l.length) default

/-- Modelled from the spec: the input crossfader state visible at the
wrapper level — a channel count fixed at construction, the stream most
recently faded to, and the fade time of the latest switch.  A stream is
a list of per-channel signal values of an opaque type `σ`. -/
structure InputFader (σ : Type) where
  nchnls : Nat
  curInput : List σ
  fadetime : ℚ
deriving DecidableEq

/-- Modelled from the spec: `InputFader(input)` — the fader is bound to
the input stream and its channel count is the input's channel count. -/
def InputFader.init {σ : Type} (input : List σ) : InputFader σ :=
  ⟨input.length, input, 0⟩

/-- Modelled from the spec: `InputFader.setInput(x, fadetime)` starts a
crossfade to the stream `x` over `fadetime` seconds; the fader's channel
count is unchanged. -/
def InputFader.setInput {σ : Type} (f : InputFader σ) (x : List σ) (t : ℚ) :
    InputFader σ :=
  { f with curInput := x, fadetime := t }

/-- The default fade time of every unit's `setInput` in the source:
`fadetime=0.05`. -/
def defaultFadetime : ℚ := 5 / 100

/-- A formal-parameter list: each entry is the parameter's name paired
with its default value's source text, when it has one. -/
abbrev Params : Type := List (String × Option String)

/-! ## TrigRand -/

/-- The per-channel base object of `TrigRand`, as a record of the values
`TrigRand.__init__` hands to `TrigRand_base`: the index of the fader
channel it reads, and its `min`, `max`, `mul` and `add` values. -/
structure TrigRand_base (α : Type) where
  input : Nat
  min : α
  max : α
  mul : α
  add : α
deriving DecidableEq

/-- The Python `TrigRand` object: the stored attributes of the class. -/
structure TrigRand (σ α : Type) where
  _input : List σ
  _min : Arg α
  _max : Arg α
  _mul : Arg α
  _add : Arg α
  _in_fader : InputFader σ
  _base_objs : List (TrigRand_base α)
deriving DecidableEq

/-- `TrigRand.__init__(self, input, min=0.05, max=0.05, mul=1, add=0)`:
stores every argument, builds the fader, resolves the channel count over
the fader and the four parameters, and builds one base object per
channel from the index-wrapped arguments. -/
def TrigRand.init {σ α : Type} [Inhabited α] (input : List σ)
    (mn mx ml ad : Arg α) : TrigRand σ α :=
  let fader := InputFader.init input
  let mnl := mn.toList
  let mxl := mx.toList
  let mll := ml.toList
  let adl := ad.toList
  let n := lmaxOf [fader.nchnls, mnl.length, mxl.length, mll.length, adl.length]
  { _input := input, _min := mn, _max := mx, _mul := ml, _add := ad,
    _in_fader := fader,
    _base_objs := (List.range n).map fun i =>
      ⟨i % fader.nchnls, wrap mnl i, wrap mxl i, wrap mll i, wrap adl i⟩ }

/-- `TrigRand.setInput(self, x, fadetime=0.05)`: stores `x` as the
input attribute and delegates the switch to the fader. -/
def TrigRand.setInput {σ α : Type} (u : TrigRand σ α) (x : List σ)
    (t : ℚ) : TrigRand σ α :=
  { u with _input := x, _in_fader := u._in_fader.setInput x t }

/-- `TrigRand.setMin(self, x)`: stores `x`, converts it to a list and
sends the index-wrapped element to each existing base object. -/
def TrigRand.setMin {σ α : Type} [Inhabited α] (u : TrigRand σ α)
    (x : Arg α) : TrigRand σ α :=
  let xl := x.toList
  { u with
    _min := x
    _base_objs := u._base_objs.mapIdx fun i o => { o with min := wrap xl i } }

/-- `TrigRand.setMax(self, x)`: stores `x`, converts it to a list and
sends the index-wrapped element to each existing base object. -/
def TrigRand.setMax {σ α : Type} [Inhabited α] (u : TrigRand σ α)
    (x : Arg α) : TrigRand σ α :=
  let xl := x.toList
  { u with
    _max := x
    _base_objs := u._base_objs.mapIdx fun i o => { o with max := wrap xl i } }

/-- Modelled from the spec: the `setMul` mutator the missing `PyoObject`
base class provides (the spec requires a get/set pair for every
parameter, `mul` and `add` included); it follows the shape of the
wrapper's own setters: store, convert to a list, dispatch index-wrapped
per channel. -/
def TrigRand.setMul {σ α : Type} [Inhabited α] (u : TrigRand σ α)
    (x : Arg α) : TrigRand σ α :=
  let xl := x.toList
  { u with
    _mul := x
    _base_objs := u._base_objs.mapIdx fun i o => { o with mul := wrap xl i } }

/-- Modelled from the spec: the `setAdd` mutator of the missing
`PyoObject` base class; same shape as `TrigRand.setMul`. -/
def TrigRand.setAdd {σ α : Type} [Inhabited α] (u : TrigRand σ α)
    (x : Arg α) : TrigRand σ α :=
  let xl := x.toList
  { u with
    _add := x
    _base_objs := u._base_objs.mapIdx fun i o => { o with add := wrap xl i } }

/-- The `input` property getter: returns the stored attribute.  (Its
property setter is `TrigRand.setInput` at the default fade time.) -/
def TrigRand.input {σ α : Type} (u : TrigRand σ α) : List σ := u._input

/-- The `min` property getter: returns the stored attribute.  (Its
property setter is `TrigRand.setMin`.) -/
def TrigRand.min {σ α : Type} (u : TrigRand σ α) : Arg α := u._min

/-- The `max` property getter: returns the stored attribute.  (Its
property setter is `TrigRand.setMax`.) -/
def TrigRand.max {σ α : Type} (u : TrigRand σ α) : Arg α := u._max

/-- Modelled from the spec: the `mul` property getter of the missing
base class. -/
def TrigRand.mul {σ α : Type} (u : TrigRand σ α) : Arg α := u._mul

/-- Modelled from the spec: the `add` property getter of the missing
base class. -/
def TrigRand.add {σ α : Type} (u : TrigRand σ α) : Arg α := u._add

/-- The formal-parameter list of `TrigRand.__init__` as written in the
source (after `self`), with the source text of each default. -/
def TrigRand.srcParams : Params :=
  [("input", none), ("min", some "0.05"), ("max", some "0.05"),
   ("mul", some "1"), ("add", some "0")]

/-! ## TrigChoice -/

/-- The per-channel base object of `TrigChoice`: the fader channel
index, the whole candidate sequence, and the `mul`/`add` values.  The
constructor hands `choice` to every base object without wrapping. -/
structure TrigChoice_base (γ α : Type) where
  input : Nat
  choice : List γ
  mul : α
  add : α
deriving DecidableEq

/-- The Python `TrigChoice` object: the stored attributes of the class. -/
structure TrigChoice (σ γ α : Type) where
  _input : List σ
  _choice : List γ
  _mul : Arg α
  _add : Arg α
  _in_fader : InputFader σ
  _base_objs : List (TrigChoice_base γ α)
deriving DecidableEq

/-- `TrigChoice.__init__(self, input, choice, mul=1, add=0)`: stores the
arguments, resolves the channel count over the fader, `mul` and `add`
only, and hands the whole `choice` sequence to every base object. -/
def TrigChoice.init {σ γ α : Type} [Inhabited α] (input : List σ)
    (choice : List γ) (ml ad : Arg α) : TrigChoice σ γ α :=
  let fader := InputFader.init input
  let mll := ml.toList
  let adl := ad.toList
  let n := lmaxOf [fader.nchnls, mll.length, adl.length]
  { _input := input, _choice := choice, _mul := ml, _add := ad,
    _in_fader := fader,
    _base_objs := (List.range n).map fun i =>
      ⟨i % fader.nchnls, choice, wrap mll i, wrap adl i⟩ }

/-- `TrigChoice.setInput(self, x, fadetime=0.05)`: stores `x` and
delegates the switch to the fader. -/
def TrigChoice.setInput {σ γ α : Type} (u : TrigChoice σ γ α) (x : List σ)
    (t : ℚ) : TrigChoice σ γ α :=
  { u with _input := x, _in_fader := u._in_fader.setInput x t }

/-- `TrigChoice.setChoice(self, x)`: stores `x` and sends the whole
sequence `x`, unwrapped, to every existing base object. -/
def TrigChoice.setChoice {σ γ α : Type} (u : TrigChoice σ γ α)
    (x : List γ) : TrigChoice σ γ α :=
  { u with
    _choice := x
    _base_objs := u._base_objs.map fun o => { o with choice := x } }

/-- Modelled from the spec: `setMul` of the missing base class, in the
shape of the wrapper's own setters. -/
def TrigChoice.setMul {σ γ α : Type} [Inhabited α] (u : TrigChoice σ γ α)
    (x : Arg α) : TrigChoice σ γ α :=
  let xl := x.toList
  { u with
    _mul := x
    _base_objs := u._base_objs.mapIdx fun i o => { o with mul := wrap xl i } }

/-- Modelled from the spec: `setAdd` of the missing base class. -/
def TrigChoice.setAdd {σ γ α : Type} [Inhabited α] (u : TrigChoice σ γ α)
    (x : Arg α) : TrigChoice σ γ α :=
  let xl := x.toList
  { u with
    _add := x
    _base_objs := u._base_objs.mapIdx fun i o => { o with add := wrap xl i } }

/-- The `input` property getter of `TrigChoice`.  (Its property setter
is `TrigChoice.setInput` at the default fade time.) -/
def TrigChoice.input {σ γ α : Type} (u : TrigChoice σ γ α) : List σ := u._input

/-- The `choice` property getter.  (Its property setter is
`TrigChoice.setChoice`.) -/
def TrigChoice.choice {σ γ α : Type} (u : TrigChoice σ γ α) : List γ := u._choice

/-- Modelled from the spec: the `mul` property getter of the missing
base class. -/
def TrigChoice.mul {σ γ α : Type} (u : TrigChoice σ γ α) : Arg α := u._mul

/-- Modelled from the spec: the `add` property getter of the missing
base class. -/
def TrigChoice.add {σ γ α : Type} (u : TrigChoice σ γ α) : Arg α := u._add

/-- The formal-parameter list of `TrigChoice.__init__` as written in the
source (after `self`). -/
def TrigChoice.srcParams : Params :=
  [("input", none), ("choice", none), ("mul", some "1"), ("add", some "0")]

/-! ## TrigFunc -/

/-- The per-channel base object of `TrigFunc`: the fader channel index
and the callback.  `TrigFunc.__init__` hands `TrigFunc_base` nothing
else — in particular no `mul` and no `add`. -/
structure TrigFunc_base (φ : Type) where
  input : Nat
  function : φ
deriving DecidableEq

/-- The Python `TrigFunc` object: the stored attributes of the class.
`__init__` stores only `_input`, `_function` and `_in_fader`; the `mul`
and `add` arguments it accepts are discarded, not stored. -/
structure TrigFunc (σ φ : Type) where
  _input : List σ
  _function : Arg φ
  _in_fader : InputFader σ
  _base_objs : List (TrigFunc_base φ)
deriving DecidableEq

/-- `TrigFunc.__init__(self, input, function, mul=1, add=0)`: stores
`input` and `function`, builds the fader, resolves the channel count
over the fader and `function` only, and builds the base objects from the
index-wrapped fader channel and callback.  The `ml` and `ad` arguments
mirror the source's `mul=1, add=0`, which the body never uses. -/
def TrigFunc.init {σ φ α : Type} [Inhabited φ] (input : List σ)
    (function : Arg φ) (ml ad : Arg α) : TrigFunc σ φ :=
  let fader := InputFader.init input
  let fnl := function.toList
  let n := lmaxOf [fader.nchnls, fnl.length]
  let _ := ml
  let _ := ad
  { _input := input, _function := function, _in_fader := fader,
    _base_objs := (List.range n).map fun i =>
      ⟨i % fader.nchnls, wrap fnl i⟩ }

/-- `TrigFunc.setInput(self, x, fadetime=0.05)`: stores `x` and
delegates the switch to the fader. -/
def TrigFunc.setInput {σ φ : Type} (u : TrigFunc σ φ) (x : List σ)
    (t : ℚ) : TrigFunc σ φ :=
  { u with _input := x, _in_fader := u._in_fader.setInput x t }

/-- `TrigFunc.setFunction(self, x)`: stores `x`, converts it to a list
and sends the index-wrapped element to each existing base object. -/
def TrigFunc.setFunction {σ φ : Type} [Inhabited φ] (u : TrigFunc σ φ)
    (x : Arg φ) : TrigFunc σ φ :=
  let xl := x.toList
  { u with
    _function := x
    _base_objs := u._base_objs.mapIdx fun i o => { o with function := wrap xl i } }

/-- The `input` property getter of `TrigFunc`.  (Its property setter is
`TrigFunc.setInput` at the default fade time.) -/
def TrigFunc.input {σ φ : Type} (u : TrigFunc σ φ) : List σ := u._input

/-- The `function` property getter.  (Its property setter is
`TrigFunc.setFunction`.) -/
def TrigFunc.function {σ φ : Type} (u : TrigFunc σ φ) : Arg φ := u._function

/-- The formal-parameter list of `TrigFunc.__init__` as written in the
source (after `self`). -/
def TrigFunc.srcParams : Params :=
  [("input", none), ("function", none), ("mul", some "1"), ("add", some "0")]

/-! ## TrigEnv -/

/-- The per-channel base object of `TrigEnv`: the fader channel index,
one table, and the `dur`, `mul` and `add` values. -/
structure TrigEnv_base (τ α : Type) where
  input : Nat
  table : τ
  dur : α
  mul : α
  add : α
deriving DecidableEq

/-- The Python `TrigEnv` object: the stored attributes of the class. -/
structure TrigEnv (σ τ α : Type) where
  _input : List σ
  _table : Arg τ
  _dur : Arg α
  _mul : Arg α
  _add : Arg α
  _in_fader : InputFader σ
  _base_objs : List (TrigEnv_base τ α)
deriving DecidableEq

/-- `TrigEnv.__init__(self, input, table, dur=1, mul=1, add=0)`: stores
every argument, builds the fader, resolves the channel count over the
fader, `table`, `dur`, `mul` and `add`, and builds one base object per
channel from the index-wrapped arguments. -/
def TrigEnv.init {σ τ α : Type} [Inhabited τ] [Inhabited α] (input : List σ)
    (table : Arg τ) (dur ml ad : Arg α) : TrigEnv σ τ α :=
  let fader := InputFader.init input
  let tbl := table.toList
  let durl := dur.toList
  let mll := ml.toList
  let adl := ad.toList
  let n := lmaxOf [fader.nchnls, tbl.length, durl.length, mll.length, adl.length]
  { _input := input, _table := table, _dur := dur, _mul := ml, _add := ad,
    _in_fader := fader,
    _base_objs := (List.range n).map fun i =>
      ⟨i % fader.nchnls, wrap tbl i, wrap durl i, wrap mll i, wrap adl i⟩ }

/-- `TrigEnv.setInput(self, x, fadetime=0.05)`: stores `x` and delegates
the switch to the fader. -/
def TrigEnv.setInput {σ τ α : Type} (u : TrigEnv σ τ α) (x : List σ)
    (t : ℚ) : TrigEnv σ τ α :=
  { u with _input := x, _in_fader := u._in_fader.setInput x t }

/-- `TrigEnv.setTable(self, x)`: stores `x` as the `table` attribute,
converts it to a list and sends the index-wrapped element to each
existing base object. -/
def TrigEnv.setTable {σ τ α : Type} [Inhabited τ] (u : TrigEnv σ τ α)
    (x : Arg τ) : TrigEnv σ τ α :=
  let xl := x.toList
  { u with
    _table := x
    _base_objs := u._base_objs.mapIdx fun i o => { o with table := wrap xl i } }

/-- `TrigEnv.setDur(self, x)`: stores `x`, converts it to a list and
sends the index-wrapped element to each existing base object. -/
def TrigEnv.setDur {σ τ α : Type} [Inhabited α] (u : TrigEnv σ τ α)
    (x : Arg α) : TrigEnv σ τ α :=
  let xl := x.toList
  { u with
    _dur := x
    _base_objs := u._base_objs.mapIdx fun i o => { o with dur := wrap xl i } }

/-- Modelled from the spec: `setMul` of the missing base class, in the
shape of the wrapper's own setters. -/
def TrigEnv.setMul {σ τ α : Type} [Inhabited α] (u : TrigEnv σ τ α)
    (x : Arg α) : TrigEnv σ τ α :=
  let xl := x.toList
  { u with
    _mul := x
    _base_objs := u._base_objs.mapIdx fun i o => { o with mul := wrap xl i } }

/-- Modelled from the spec: `setAdd` of the missing base class. -/
def TrigEnv.setAdd {σ τ α : Type} [Inhabited α] (u : TrigEnv σ τ α)
    (x : Arg α) : TrigEnv σ τ α :=
  let xl := x.toList
  { u with
    _add := x
    _base_objs := u._base_objs.mapIdx fun i o => { o with add := wrap xl i } }

/-- The `input` property getter of `TrigEnv`.  (Its property setter is
`TrigEnv.setInput` at the default fade time.) -/
def TrigEnv.input {σ τ α : Type} (u : TrigEnv σ τ α) : List σ := u._input

/-- The `table` property getter.  (Its property setter is
`TrigEnv.setTable`.) -/
def TrigEnv.table {σ τ α : Type} (u : TrigEnv σ τ α) : Arg τ := u._table

/-- The `dur` property getter.  (Its property setter is
`TrigEnv.setDur`.) -/
def TrigEnv.dur {σ τ α : Type} (u : TrigEnv σ τ α) : Arg α := u._dur

/-- Modelled from the spec: the `mul` property getter of the missing
base class. -/
def TrigEnv.mul {σ τ α : Type} (u : TrigEnv σ τ α) : Arg α := u._mul

/-- Modelled from the spec: the `add` property getter of the missing
base class. -/
def TrigEnv.add {σ τ α : Type} (u : TrigEnv σ τ α) : Arg α := u._add

/-- The formal-parameter list of `TrigEnv.__init__` as written in the
source (after `self`). -/
def TrigEnv.srcParams : Params :=
  [("input", none), ("table", none), ("dur", some "1"),
   ("mul", some "1"), ("add", some "0")]

/-! ## Counter -/

/-- The per-channel base object of `Counter`: the fader channel index
and the `min`, `max`, `dir`, `mul` and `add` values. -/
structure Counter_base (α : Type) where
  input : Nat
  min : α
  max : α
  dir : α
  mul : α
  add : α
deriving DecidableEq

/-- The Python `Counter` object: the stored attributes of the class. -/
structure Counter (σ α : Type) where
  _input : List σ
  _min : Arg α
  _max : Arg α
  _dir : Arg α
  _mul : Arg α
  _add : Arg α
  _in_fader : InputFader σ
  _base_objs : List (Counter_base α)
deriving DecidableEq

/-- `Counter.__init__(self, input, min=0, max=100, dir=0, mul=1, add=0)`:
stores every argument, builds the fader, resolves the channel count over
the fader and the five parameters, and builds one base object per
channel from the index-wrapped arguments. -/
def Counter.init {σ α : Type} [Inhabited α] (input : List σ)
    (mn mx dr ml ad : Arg α) : Counter σ α :=
  let fader := InputFader.init input
  let mnl := mn.toList
  let mxl := mx.toList
  let drl := dr.toList
  let mll := ml.toList
  let adl := ad.toList
  let n := lmaxOf [fader.nchnls, mnl.length, mxl.length, drl.length,
                   mll.length, adl.length]
  { _input := input, _min := mn, _max := mx, _dir := dr, _mul := ml, _add := ad,
    _in_fader := fader,
    _base_objs := (List.range n).map fun i =>
      ⟨i % fader.nchnls, wrap mnl i, wrap mxl i, wrap drl i,
       wrap mll i, wrap adl i⟩ }

/-- `Counter.setInput(self, x, fadetime=0.05)`: stores `x` and delegates
the switch to the fader. -/
def Counter.setInput {σ α : Type} (u : Counter σ α) (x : List σ)
    (t : ℚ) : Counter σ α :=
  { u with _input := x, _in_fader := u._in_fader.setInput x t }

/-- `Counter.setMin(self, x)`: stores `x`, converts it to a list and
sends the index-wrapped element to each existing base object. -/
def Counter.setMin {σ α : Type} [Inhabited α] (u : Counter σ α)
    (x : Arg α) : Counter σ α :=
  let xl := x.toList
  { u with
    _min := x
    _base_objs := u._base_objs.mapIdx fun i o => { o with min := wrap xl i } }

/-- `Counter.setMax(self, x)`: stores `x`, converts it to a list and
sends the index-wrapped element to each existing base object. -/
def Counter.setMax {σ α : Type} [Inhabited α] (u : Counter σ α)
    (x : Arg α) : Counter σ α :=
  let xl := x.toList
  { u with
    _max := x
    _base_objs := u._base_objs.mapIdx fun i o => { o with max := wrap xl i } }

/-- `Counter.setDir(self, x)`: stores `x`, converts it to a list and
sends the index-wrapped element to each existing base object. -/
def Counter.setDir {σ α : Type} [Inhabited α] (u : Counter σ α)
    (x : Arg α) : Counter σ α :=
  let xl := x.toList
  { u with
    _dir := x
    _base_objs := u._base_objs.mapIdx fun i o => { o with dir := wrap xl i } }

/-- Modelled from the spec: `setMul` of the missing base class, in the
shape of the wrapper's own setters. -/
def Counter.setMul {σ α : Type} [Inhabited α] (u : Counter σ α)
    (x : Arg α) : Counter σ α :=
  let xl := x.toList
  { u with
    _mul := x
    _base_objs := u._base_objs.mapIdx fun i o => { o with mul := wrap xl i } }

/-- Modelled from the spec: `setAdd` of the missing base class. -/
def Counter.setAdd {σ α : Type} [Inhabited α] (u : Counter σ α)
    (x : Arg α) : Counter σ α :=
  let xl := x.toList
  { u with
    _add := x
    _base_objs := u._base_objs.mapIdx fun i o => { o with add := wrap xl i } }

/-- The `input` property getter of `Counter`.  (Its property setter is
`Counter.setInput` at the default fade time.) -/
def Counter.input {σ α : Type} (u : Counter σ α) : List σ := u._input

/-- The `min` property getter.  (Its property setter is
`Counter.setMin`.) -/
def Counter.min {σ α : Type} (u : Counter σ α) : Arg α := u._min

/-- The `max` property getter.  (Its property setter is
`Counter.setMax`.) -/
def Counter.max {σ α : Type} (u : Counter σ α) : Arg α := u._max

/-- The `dir` property getter.  (Its property setter is
`Counter.setDir`.) -/
def Counter.dir {σ α : Type} (u : Counter σ α) : Arg α := u._dir

/-- Modelled from the spec: the `mul` property getter of the missing
base class. -/
def Counter.mul {σ α : Type} (u : Counter σ α) : Arg α := u._mul

/-- Modelled from the spec: the `add` property getter of the missing
base class. -/
def Counter.add {σ α : Type} (u : Counter σ α) : Arg α := u._add

/-- The formal-parameter list of `Counter.__init__` as written in the
source (after `self`). -/
def Counter.srcParams : Params :=
  [("input", none), ("min", some "0"), ("max", some "100"),
   ("dir", some "0"), ("mul", some "1"), ("add", some "0")]

/-! ## Select -/

/-- The per-channel base object of `Select`: the fader channel index and
the `value` to compare against.  `Select.__init__` hands `Select_base`
nothing else — no `mul`, no `add`. -/
structure Select_base (α : Type) where
  input : Nat
  value : α
deriving DecidableEq

/-- The Python `Select` object: the stored attributes of the class. -/
structure Select (σ α : Type) where
  _input : List σ
  _value : Arg α
  _in_fader : InputFader σ
  _base_objs : List (Select_base α)
deriving DecidableEq

/-- `Select.__init__(self, input, value=0)`: stores the arguments,
builds the fader, resolves the channel count over the fader and `value`,
and builds the base objects from the index-wrapped arguments. -/
def Select.init {σ α : Type} [Inhabited α] (input : List σ)
    (value : Arg α) : Select σ α :=
  let fader := InputFader.init input
  let vl := value.toList
  let n := lmaxOf [fader.nchnls, vl.length]
  { _input := input, _value := value, _in_fader := fader,
    _base_objs := (List.range n).map fun i =>
      ⟨i % fader.nchnls, wrap vl i⟩ }

/-- `Select.setInput(self, x, fadetime=0.05)`: stores `x` and delegates
the switch to the fader. -/
def Select.setInput {σ α : Type} (u : Select σ α) (x : List σ)
    (t : ℚ) : Select σ α :=
  { u with _input := x, _in_fader := u._in_fader.setInput x t }

/-- `Select.setValue(self, x)`: stores `x`, converts it to a list and
sends the index-wrapped element to each existing base object. -/
def Select.setValue {σ α : Type} [Inhabited α] (u : Select σ α)
    (x : Arg α) : Select σ α :=
  let xl := x.toList
  { u with
    _value := x
    _base_objs := u._base_objs.mapIdx fun i o => { o with value := wrap xl i } }

/-- The `input` property getter of `Select`.  (Its property setter is
`Select.setInput` at the default fade time.) -/
def Select.input {σ α : Type} (u : Select σ α) : List σ := u._input

/-- The `value` property getter.  (Its property setter is
`Select.setValue`.) -/
def Select.value {σ α : Type} (u : Select σ α) : Arg α := u._value

/-- The formal-parameter list of `Select.__init__` as written in the
source (after `self`). -/
def Select.srcParams : Params :=
  [("input", none), ("value", some "0")]

/-! ## The spec's interface section, for comparison

The following definitions transcribe the construction-parameter lists
the specification's interface section gives, one per unit.  They are
written from the spec's words and exist to be compared with the
`srcParams` lists read off the source signatures. -/

/-- Spec interface list: `TrigRand(input, min=0.05, max=0.05, mul=1, add=0)`. -/
def specParamsTrigRand : Params :=
  [("input", none), ("min", some "0.05"), ("max", some "0.05"),
   ("mul", some "1"), ("add", some "0")]

/-- Spec interface list: `TrigChoice(input, choice, mul=1, add=0)`. -/
def specParamsTrigChoice : Params :=
  [("input", none), ("choice", none), ("mul", some "1"), ("add", some "0")]

/-- Spec interface list: `TrigFunc(input, function)`. -/
def specParamsTrigFunc : Params :=
  [("input", none), ("function", none)]

/-- Spec interface list: `TrigEnv(input, table, dur=1, mul=1, add=0)`. -/
def specParamsTrigEnv : Params :=
  [("input", none), ("table", none), ("dur", some "1"),
   ("mul", some "1"), ("add", some "0")]

/-- Spec interface list: `Counter(input, min=0, max=100, dir=0, mul=1, add=0)`. -/
def specParamsCounter : Params :=
  [("input", none), ("min", some "0"), ("max", some "100"),
   ("dir", some "0"), ("mul", some "1"), ("add", some "0")]

/-- Spec interface list: `Select(input, value=0)`. -/
def specParamsSelect : Params :=
  [("input", none), ("value", some "0")]


/-! ## Dispatch invariants

A unit is *in sync* when every base object holds exactly the
index-wrapped slice of the stored parameter attributes — the state every
construction produces and every setter re-establishes.  These
predicates cover the parameters whose setters the wrapper defines. -/

/-- `TrigRand` is in sync: channel `i` holds the wrapped `min` and `max`. -/
def TrigRand.paramSync {σ α : Type} [Inhabited α] (u : TrigRand σ α) : Prop :=
  ∀ i (h : i < u._base_objs.length),
    (u._base_objs.get ⟨i, h⟩).min = wrap u._min.toList i ∧
    (u._base_objs.get ⟨i, h⟩).max = wrap u._max.toList i

/-- `TrigChoice` is in sync: every channel holds the whole stored
candidate sequence. -/
def TrigChoice.paramSync {σ γ α : Type} (u : TrigChoice σ γ α) : Prop :=
  ∀ i (h : i < u._base_objs.length),
    (u._base_objs.get ⟨i, h⟩).choice = u._choice

/-- `TrigFunc` is in sync: channel `i` holds the wrapped callback. -/
def TrigFunc.paramSync {σ φ : Type} [Inhabited φ] (u : TrigFunc σ φ) : Prop :=
  ∀ i (h : i < u._base_objs.length),
    (u._base_objs.get ⟨i, h⟩).function = wrap u._function.toList i

/-- `TrigEnv` is in sync: channel `i` holds the wrapped `table` and `dur`. -/
def TrigEnv.paramSync {σ τ α : Type} [Inhabited τ] [Inhabited α]
    (u : TrigEnv σ τ α) : Prop :=
  ∀ i (h : i < u._base_objs.length),
    (u._base_objs.get ⟨i, h⟩).table = wrap u._table.toList i ∧
    (u._base_objs.get ⟨i, h⟩).dur = wrap u._dur.toList i

/-- `Counter` is in sync: channel `i` holds the wrapped `min`, `max`
and `dir`. -/
def Counter.paramSync {σ α : Type} [Inhabited α] (u : Counter σ α) : Prop :=
  ∀ i (h : i < u._base_objs.length),
    (u._base_objs.get ⟨i, h⟩).min = wrap u._min.toList i ∧
    (u._base_objs.get ⟨i, h⟩).max = wrap u._max.toList i ∧
    (u._base_objs.get ⟨i, h⟩).dir = wrap u._dir.toList i

/-- `Select` is in sync: channel `i` holds the wrapped `value`. -/
def Select.paramSync {σ α : Type} [Inhabited α] (u : Select σ α) : Prop :=
  ∀ i (h : i < u._base_objs.length),
    (u._base_objs.get ⟨i, h⟩).value = wrap u._value.toList i

/-! ## Helper lemmas -/

/-- On a nonempty list the core's `wrap` realises the spec's index-wrap
broadcast rule: it reads the element at index `i` modulo the list's own
length. -/
theorem wrap_get? {α : Type} [Inhabited α] (l : List α) (i : Nat)
    (h : l ≠ []) : l.get? (i % l.length) = some (wrap l i) := by
  have hlt : i % l.length < l.length := Nat.mod_lt i (List.length_pos.mpr h)
  rw [List.get?_eq_get hlt, wrap, List.getD_eq_get _ _ hlt]

/-- Reading channel `i` of a base-object list built by a range-map
comprehension gives the comprehension body at `i`. -/
theorem get_range_map {β : Type} (n : Nat) (f : Nat → β) (i : Nat)
    (h : i < ((List.range n).map f).length) :
    ((List.range n).map f).get ⟨i, h⟩ = f i := by
  have h' : i < n := by simpa using h
  simp [List.get_map, List.get_range]

/-- Reading in-range channel `i` of a base-object list built by a
range-map comprehension, `Option`-valued. -/
theorem get?_range_map {β : Type} (n : Nat) (f : Nat → β) (i : Nat)
    (h : i < n) : ((List.range n).map f).get? i = some (f i) := by
  rw [List.get?_eq_get (by simpa using h), get_range_map]

/-- A field of channel `i` of a range-map-built base-object list, when
the comprehension body fills that field with `v i`. -/
theorem rangeMap_field_eq {β χ : Type} (n : Nat) (f : Nat → β) (p : β → χ)
    (v : Nat → χ) (hp : ∀ j, p (f j) = v j) (i : Nat) (hi : i < n) :
    (((List.range n).map f).get? i).map p = some (v i) := by
  rw [get?_range_map _ _ _ hi, Option.map_some', hp]

/-- A field of channel `i` of a range-map-built base-object list, when
the comprehension body fills that field by index-wrapping a nonempty
parameter list `l`: the field holds `l`'s element at index `i` modulo
`l`'s own length. -/
theorem rangeMap_field_wrap {β χ : Type} [Inhabited χ] (n : Nat) (f : Nat → β)
    (p : β → χ) (l : List χ) (hp : ∀ j, p (f j) = wrap l j) (i : Nat)
    (hi : i < n) (hne : l ≠ []) :
    (((List.range n).map f).get? i).map p = l.get? (i % l.length) := by
  rw [get?_range_map _ _ _ hi, Option.map_some', hp, wrap_get? _ _ hne]

/-- A `mapIdx` whose body fixes every element is the identity. -/
theorem mapIdx_eq_self_of_fix {β : Type} (l : List β) (g : Nat → β → β)
    (hfix : ∀ i (h : i < l.length), g i (l.get ⟨i, h⟩) = l.get ⟨i, h⟩) :
    l.mapIdx g = l := by
  rw [List.mapIdx_eq_ofFn]
  have he : (fun i : Fin l.length => g i (l.get i)) = fun i : Fin l.length => l.get i := by
    funext i
    exact hfix i i.isLt
  rw [he]
  exact List.ofFn_get l

/-- Reading channel `i` of a base-object list rebuilt by a `mapIdx`
dispatch gives the dispatch body applied to the old channel `i`. -/
theorem get_mapIdx_of_lt {β : Type} (l : List β) (g : Nat → β → β) (i : Nat)
    (h : i < (l.mapIdx g).length) (h' : i < l.length) :
    (l.mapIdx g).get ⟨i, h⟩ = g i (l.get ⟨i, h'⟩) :=
  List.get_mapIdx l g i h' h

/-- A `map` whose body fixes every element is the identity. -/
theorem map_eq_self_of_fix {β : Type} (l : List β) (g : β → β)
    (hfix : ∀ i (h : i < l.length), g (l.get ⟨i, h⟩) = l.get ⟨i, h⟩) :
    l.map g = l := by
  apply List.ext_get
  · simp
  · intro n h1 h2
    rw [List.get_map]
    exact hfix n h2

/-- The base-object list `TrigRand.__init__` builds, written out. -/
theorem init_base_objs_trigRand {σ α : Type} [Inhabited α] (input : List σ)
    (mn mx ml ad : Arg α) :
    (TrigRand.init input mn mx ml ad)._base_objs
      = (List.range (lmaxOf [input.length, mn.toList.length, mx.toList.length,
          ml.toList.length, ad.toList.length])).map (fun i =>
        ⟨i % input.length, wrap mn.toList i, wrap mx.toList i, wrap ml.toList i,
         wrap ad.toList i⟩) := rfl

/-- The base-object list `TrigChoice.__init__` builds, written out. -/
theorem init_base_objs_trigChoice {σ γ α : Type} [Inhabited α] (input : List σ)
    (c : List γ) (ml ad : Arg α) :
    (TrigChoice.init input c ml ad)._base_objs
      = (List.range (lmaxOf [input.length, ml.toList.length, ad.toList.length])).map
        (fun i => ⟨i % input.length, c, wrap ml.toList i, wrap ad.toList i⟩) := rfl

/-- The base-object list `TrigFunc.__init__` builds, written out: the
channel count is resolved over the fader and the callback only, and no
base object receives `mul` or `add`. -/
theorem init_base_objs_trigFunc {σ φ α : Type} [Inhabited φ] (input : List σ)
    (fn : Arg φ) (ml ad : Arg α) :
    (TrigFunc.init input fn ml ad)._base_objs
      = (List.range (lmaxOf [input.length, fn.toList.length])).map
        (fun i => ⟨i % input.length, wrap fn.toList i⟩) := rfl

/-- The base-object list `TrigEnv.__init__` builds, written out. -/
theorem init_base_objs_trigEnv {σ τ α : Type} [Inhabited τ] [Inhabited α]
    (input : List σ) (tb : Arg τ) (dur ml ad : Arg α) :
    (TrigEnv.init input tb dur ml ad)._base_objs
      = (List.range (lmaxOf [input.length, tb.toList.length, dur.toList.length,
          ml.toList.length, ad.toList.length])).map (fun i =>
        ⟨i % input.length, wrap tb.toList i, wrap dur.toList i, wrap ml.toList i,
         wrap ad.toList i⟩) := rfl

/-- The base-object list `Counter.__init__` builds, written out. -/
theorem init_base_objs_counter {σ α : Type} [Inhabited α] (input : List σ)
    (mn mx dr ml ad : Arg α) :
    (Counter.init input mn mx dr ml ad)._base_objs
      = (List.range (lmaxOf [input.length, mn.toList.length, mx.toList.length,
          dr.toList.length, ml.toList.length, ad.toList.length])).map (fun i =>
        ⟨i % input.length, wrap mn.toList i, wrap mx.toList i, wrap dr.toList i,
         wrap ml.toList i, wrap ad.toList i⟩) := rfl

/-- The base-object list `Select.__init__` builds, written out. -/
theorem init_base_objs_select {σ α : Type} [Inhabited α] (input : List σ)
    (v : Arg α) :
    (Select.init input v)._base_objs
      = (List.range (lmaxOf [input.length, v.toList.length])).map
        (fun i => ⟨i % input.length, wrap v.toList i⟩) := rfl

/-! ## Claim theorems -/

/-- Claim C2, counterexample: the claim fails as stated, because the
source signature of `TrigFunc.__init__` is
`(input, function, mul=1, add=0)` while the spec's interface section
gives `TrigFunc(input, function)`. -/
theorem claim_C2_counterexample : TrigFunc.srcParams ≠ specParamsTrigFunc := by
  decide

/-- Claim C2, amended: five of the six constructors have exactly the
parameter list and default values of the spec's interface section;
`TrigFunc`'s constructor has the spec's list extended by `mul=1` and
`add=0`, two trailing defaulted parameters its body never uses. -/
theorem claim_C2_amended :
    TrigRand.srcParams = specParamsTrigRand ∧
    TrigChoice.srcParams = specParamsTrigChoice ∧
    TrigEnv.srcParams = specParamsTrigEnv ∧
    Counter.srcParams = specParamsCounter ∧
    Select.srcParams = specParamsSelect ∧
    TrigFunc.srcParams = specParamsTrigFunc ++ [("mul", some "1"), ("add", some "0")] :=
  ⟨rfl, rfl, rfl, rfl, rfl, rfl⟩

/-- Claim C4: the per-channel base-object list is fixed at construction:
every parameter setter (`setMin`, `setMax`, `setDir`, `setDur`,
`setValue`, `setFunction`, `setTable`, `setChoice`) dispatches over the
existing base objects and preserves their number, and `setInput` leaves
the base-object list untouched, for every unit. -/
theorem claim_C4_channel_count_stable {σ α γ τ φ : Type} [Inhabited α]
    [Inhabited τ] [Inhabited φ] :
    (∀ (u : TrigRand σ α) (x : Arg α),
      ((u.setMin x)._base_objs.length = u._base_objs.length) ∧
      ((u.setMax x)._base_objs.length = u._base_objs.length)) ∧
    (∀ (u : TrigRand σ α) (x : List σ) (t : ℚ),
      (u.setInput x t)._base_objs = u._base_objs) ∧
    (∀ (u : TrigChoice σ γ α) (x : List γ),
      (u.setChoice x)._base_objs.length = u._base_objs.length) ∧
    (∀ (u : TrigChoice σ γ α) (x : List σ) (t : ℚ),
      (u.setInput x t)._base_objs = u._base_objs) ∧
    (∀ (u : TrigFunc σ φ) (x : Arg φ),
      (u.setFunction x)._base_objs.length = u._base_objs.length) ∧
    (∀ (u : TrigFunc σ φ) (x : List σ) (t : ℚ),
      (u.setInput x t)._base_objs = u._base_objs) ∧
    (∀ (u : TrigEnv σ τ α) (x : Arg τ),
      (u.setTable x)._base_objs.length = u._base_objs.length) ∧
    (∀ (u : TrigEnv σ τ α) (x : Arg α),
      (u.setDur x)._base_objs.length = u._base_objs.length) ∧
    (∀ (u : TrigEnv σ τ α) (x : List σ) (t : ℚ),
      (u.setInput x t)._base_objs = u._base_objs) ∧
    (∀ (u : Counter σ α) (x : Arg α),
      ((u.setMin x)._base_objs.length = u._base_objs.length) ∧
      ((u.setMax x)._base_objs.length = u._base_objs.length) ∧
      ((u.setDir x)._base_objs.length = u._base_objs.length)) ∧
    (∀ (u : Counter σ α) (x : List σ) (t : ℚ),
      (u.setInput x t)._base_objs = u._base_objs) ∧
    (∀ (u : Select σ α) (x : Arg α),
      (u.setValue x)._base_objs.length = u._base_objs.length) ∧
    (∀ (u : Select σ α) (x : List σ) (t : ℚ),
      (u.setInput x t)._base_objs = u._base_objs) := by
  refine ⟨fun u x => ⟨?_, ?_⟩, fun u x t => rfl, fun u x => ?_, fun u x t => rfl,
    fun u x => ?_, fun u x t => rfl, fun u x => ?_, fun u x => ?_, fun u x t => rfl,
    fun u x => ⟨?_, ?_, ?_⟩, fun u x t => rfl, fun u x => ?_, fun u x t => rfl⟩ <;>
  simp [TrigRand.setMin, TrigRand.setMax, TrigChoice.setChoice, TrigFunc.setFunction,
    TrigEnv.setTable, TrigEnv.setDur, Counter.setMin, Counter.setMax, Counter.setDir,
    Select.setValue, List.length_mapIdx]

/-- Claim C5: every construction parameter of every unit has a get/set
pair (each property's setter is the corresponding `setX` mutator, and
each property's getter returns the stored attribute), and reading the
property right after setting it to `v` returns `v`.  The `mul`/`add`
pairs live in the missing base class and are modelled from the spec. -/
theorem claim_C5_get_set_roundtrip {σ α γ τ φ : Type} [Inhabited α]
    [Inhabited τ] [Inhabited φ] :
    (∀ (u : TrigRand σ α) (x : List σ) (t : ℚ), (u.setInput x t).input = x) ∧
    (∀ (u : TrigRand σ α) (v : Arg α),
      ((u.setMin v).min = v) ∧ ((u.setMax v).max = v) ∧
      ((u.setMul v).mul = v) ∧ ((u.setAdd v).add = v)) ∧
    (∀ (u : TrigChoice σ γ α) (x : List σ) (t : ℚ), (u.setInput x t).input = x) ∧
    (∀ (u : TrigChoice σ γ α) (c : List γ), (u.setChoice c).choice = c) ∧
    (∀ (u : TrigChoice σ γ α) (v : Arg α),
      ((u.setMul v).mul = v) ∧ ((u.setAdd v).add = v)) ∧
    (∀ (u : TrigFunc σ φ) (x : List σ) (t : ℚ), (u.setInput x t).input = x) ∧
    (∀ (u : TrigFunc σ φ) (f : Arg φ), (u.setFunction f).function = f) ∧
    (∀ (u : TrigEnv σ τ α) (x : List σ) (t : ℚ), (u.setInput x t).input = x) ∧
    (∀ (u : TrigEnv σ τ α) (tb : Arg τ), (u.setTable tb).table = tb) ∧
    (∀ (u : TrigEnv σ τ α) (v : Arg α),
      ((u.setDur v).dur = v) ∧ ((u.setMul v).mul = v) ∧ ((u.setAdd v).add = v)) ∧
    (∀ (u : Counter σ α) (x : List σ) (t : ℚ), (u.setInput x t).input = x) ∧
    (∀ (u : Counter σ α) (v : Arg α),
      ((u.setMin v).min = v) ∧ ((u.setMax v).max = v) ∧ ((u.setDir v).dir = v) ∧
      ((u.setMul v).mul = v) ∧ ((u.setAdd v).add = v)) ∧
    (∀ (u : Select σ α) (x : List σ) (t : ℚ), (u.setInput x t).input = x) ∧
    (∀ (u : Select σ α) (v : Arg α), (u.setValue v).value = v) :=
  ⟨fun _ _ _ => rfl, fun _ _ => ⟨rfl, rfl, rfl, rfl⟩, fun _ _ _ => rfl,
   fun _ _ => rfl, fun _ _ => ⟨rfl, rfl⟩, fun _ _ _ => rfl, fun _ _ => rfl,
   fun _ _ _ => rfl, fun _ _ => rfl, fun _ _ => ⟨rfl, rfl, rfl⟩, fun _ _ _ => rfl,
   fun _ _ => ⟨rfl, rfl, rfl, rfl, rfl⟩, fun _ _ _ => rfl, fun _ _ => rfl⟩

/-- Claim C8: for every unit, `setInput(x, fadetime)` stores `x` as the
input attribute and hands the switch to the unit's fader with the given
fade time, whose source default is `0.05`; the base-object list and
every other stored parameter attribute are left unchanged. -/
theorem claim_C8_setInput_frame {σ α γ τ φ : Type} :
    (defaultFadetime = 5 / 100) ∧
    (∀ (f : InputFader σ) (x : List σ) (t : ℚ),
      ((f.setInput x t).curInput = x) ∧ ((f.setInput x t).fadetime = t) ∧
      ((f.setInput x t).nchnls = f.nchnls)) ∧
    (∀ (u : TrigRand σ α) (x : List σ) (t : ℚ),
      ((u.setInput x t)._input = x) ∧
      ((u.setInput x t)._in_fader = u._in_fader.setInput x t) ∧
      ((u.setInput x t)._base_objs = u._base_objs) ∧
      ((u.setInput x t)._min = u._min) ∧ ((u.setInput x t)._max = u._max) ∧
      ((u.setInput x t)._mul = u._mul) ∧ ((u.setInput x t)._add = u._add)) ∧
    (∀ (u : TrigChoice σ γ α) (x : List σ) (t : ℚ),
      ((u.setInput x t)._input = x) ∧
      ((u.setInput x t)._in_fader = u._in_fader.setInput x t) ∧
      ((u.setInput x t)._base_objs = u._base_objs) ∧
      ((u.setInput x t)._choice = u._choice) ∧
      ((u.setInput x t)._mul = u._mul) ∧ ((u.setInput x t)._add = u._add)) ∧
    (∀ (u : TrigFunc σ φ) (x : List σ) (t : ℚ),
      ((u.setInput x t)._input = x) ∧
      ((u.setInput x t)._in_fader = u._in_fader.setInput x t) ∧
      ((u.setInput x t)._base_objs = u._base_objs) ∧
      ((u.setInput x t)._function = u._function)) ∧
    (∀ (u : TrigEnv σ τ α) (x : List σ) (t : ℚ),
      ((u.setInput x t)._input = x) ∧
      ((u.setInput x t)._in_fader = u._in_fader.setInput x t) ∧
      ((u.setInput x t)._base_objs = u._base_objs) ∧
      ((u.setInput x t)._table = u._table) ∧ ((u.setInput x t)._dur = u._dur) ∧
      ((u.setInput x t)._mul = u._mul) ∧ ((u.setInput x t)._add = u._add)) ∧
    (∀ (u : Counter σ α) (x : List σ) (t : ℚ),
      ((u.setInput x t)._input = x) ∧
      ((u.setInput x t)._in_fader = u._in_fader.setInput x t) ∧
      ((u.setInput x t)._base_objs = u._base_objs) ∧
      ((u.setInput x t)._min = u._min) ∧ ((u.setInput x t)._max = u._max) ∧
      ((u.setInput x t)._dir = u._dir) ∧
      ((u.setInput x t)._mul = u._mul) ∧ ((u.setInput x t)._add = u._add)) ∧
    (∀ (u : Select σ α) (x : List σ) (t : ℚ),
      ((u.setInput x t)._input = x) ∧
      ((u.setInput x t)._in_fader = u._in_fader.setInput x t) ∧
      ((u.setInput x t)._base_objs = u._base_objs) ∧
      ((u.setInput x t)._value = u._value)) :=
  ⟨rfl, fun _ _ _ => ⟨rfl, rfl, rfl⟩,
   fun _ _ _ => ⟨rfl, rfl, rfl, rfl, rfl, rfl, rfl⟩,
   fun _ _ _ => ⟨rfl, rfl, rfl, rfl, rfl, rfl⟩,
   fun _ _ _ => ⟨rfl, rfl, rfl, rfl⟩,
   fun _ _ _ => ⟨rfl, rfl, rfl, rfl, rfl, rfl, rfl⟩,
   fun _ _ _ => ⟨rfl, rfl, rfl, rfl, rfl, rfl, rfl, rfl⟩,
   fun _ _ _ => ⟨rfl, rfl, rfl, rfl⟩⟩

/-- Claim C9: TrigChoice's resolved channel count is determined only by
the input fader, `mul` and `add`; the length of the choice sequence
never contributes, even when `choice` is the longest list argument. -/
theorem claim_C9_choice_channel_count {σ γ α : Type} [Inhabited α] :
    (∀ (input : List σ) (c c' : List γ) (ml ad : Arg α),
      (TrigChoice.init input c ml ad)._base_objs.length
        = (TrigChoice.init input c' ml ad)._base_objs.length) ∧
    (∀ (input : List σ) (c : List γ) (ml ad : Arg α),
      (TrigChoice.init input c ml ad)._base_objs.length
        = Nat.max input.length (Nat.max ml.toList.length ad.toList.length)) := by
  constructor <;> intros <;>
    simp [TrigChoice.init, InputFader.init, lmaxOf]

/-- Claim C3: for every unit, the number of per-channel base objects
created at construction equals the maximum channel count over the
arguments the constructor feeds to the channel broadcaster (the input
fader and the unit's broadcast parameters), and each such parameter is
broadcast to channel `i` by index-wrap: channel `i` reads the
parameter's element at index `i` modulo the parameter's own length.
(TrigChoice's `choice` and TrigFunc's discarded `mul`/`add` are not
broadcast parameters; claims C9 and C1 cover them.) -/
theorem claim_C3_channel_resolution {σ α γ τ φ : Type} [Inhabited α]
    [Inhabited τ] [Inhabited φ] :
    (∀ (input : List σ) (mn mx ml ad : Arg α),
      ((TrigRand.init input mn mx ml ad)._base_objs.length
        = Nat.max input.length (Nat.max mn.toList.length (Nat.max mx.toList.length
            (Nat.max ml.toList.length ad.toList.length)))) ∧
      (∀ i, i < (TrigRand.init input mn mx ml ad)._base_objs.length →
        (((TrigRand.init input mn mx ml ad)._base_objs.get? i).map TrigRand_base.input
          = some (i % input.length)) ∧
        (mn.toList ≠ [] →
          ((TrigRand.init input mn mx ml ad)._base_objs.get? i).map TrigRand_base.min
            = mn.toList.get? (i % mn.toList.length)) ∧
        (mx.toList ≠ [] →
          ((TrigRand.init input mn mx ml ad)._base_objs.get? i).map TrigRand_base.max
            = mx.toList.get? (i % mx.toList.length)) ∧
        (ml.toList ≠ [] →
          ((TrigRand.init input mn mx ml ad)._base_objs.get? i).map TrigRand_base.mul
            = ml.toList.get? (i % ml.toList.length)) ∧
        (ad.toList ≠ [] →
          ((TrigRand.init input mn mx ml ad)._base_objs.get? i).map TrigRand_base.add
            = ad.toList.get? (i % ad.toList.length)))) ∧
    (∀ (input : List σ) (c : List γ) (ml ad : Arg α),
      ((TrigChoice.init input c ml ad)._base_objs.length
        = Nat.max input.length (Nat.max ml.toList.length ad.toList.length)) ∧
      (∀ i, i < (TrigChoice.init input c ml ad)._base_objs.length →
        (((TrigChoice.init input c ml ad)._base_objs.get? i).map TrigChoice_base.input
          = some (i % input.length)) ∧
        (ml.toList ≠ [] →
          ((TrigChoice.init input c ml ad)._base_objs.get? i).map TrigChoice_base.mul
            = ml.toList.get? (i % ml.toList.length)) ∧
        (ad.toList ≠ [] →
          ((TrigChoice.init input c ml ad)._base_objs.get? i).map TrigChoice_base.add
            = ad.toList.get? (i % ad.toList.length)))) ∧
    (∀ (input : List σ) (fn : Arg φ) (ml ad : Arg α),
      ((TrigFunc.init input fn ml ad)._base_objs.length
        = Nat.max input.length fn.toList.length) ∧
      (∀ i, i < (TrigFunc.init input fn ml ad)._base_objs.length →
        (((TrigFunc.init input fn ml ad)._base_objs.get? i).map TrigFunc_base.input
          = some (i % input.length)) ∧
        (fn.toList ≠ [] →
          ((TrigFunc.init input fn ml ad)._base_objs.get? i).map TrigFunc_base.function
            = fn.toList.get? (i % fn.toList.length)))) ∧
    (∀ (input : List σ) (tb : Arg τ) (dur ml ad : Arg α),
      ((TrigEnv.init input tb dur ml ad)._base_objs.length
        = Nat.max input.length (Nat.max tb.toList.length (Nat.max dur.toList.length
            (Nat.max ml.toList.length ad.toList.length)))) ∧
      (∀ i, i < (TrigEnv.init input tb dur ml ad)._base_objs.length →
        (((TrigEnv.init input tb dur ml ad)._base_objs.get? i).map TrigEnv_base.input
          = some (i % input.length)) ∧
        (tb.toList ≠ [] →
          ((TrigEnv.init input tb dur ml ad)._base_objs.get? i).map TrigEnv_base.table
            = tb.toList.get? (i % tb.toList.length)) ∧
        (dur.toList ≠ [] →
          ((TrigEnv.init input tb dur ml ad)._base_objs.get? i).map TrigEnv_base.dur
            = dur.toList.get? (i % dur.toList.length)) ∧
        (ml.toList ≠ [] →
          ((TrigEnv.init input tb dur ml ad)._base_objs.get? i).map TrigEnv_base.mul
            = ml.toList.get? (i % ml.toList.length)) ∧
        (ad.toList ≠ [] →
          ((TrigEnv.init input tb dur ml ad)._base_objs.get? i).map TrigEnv_base.add
            = ad.toList.get? (i % ad.toList.length)))) ∧
    (∀ (input : List σ) (mn mx dr ml ad : Arg α),
      ((Counter.init input mn mx dr ml ad)._base_objs.length
        = Nat.max input.length (Nat.max mn.toList.length (Nat.max mx.toList.length
            (Nat.max dr.toList.length (Nat.max ml.toList.length ad.toList.length))))) ∧
      (∀ i, i < (Counter.init input mn mx dr ml ad)._base_objs.length →
        (((Counter.init input mn mx dr ml ad)._base_objs.get? i).map Counter_base.input
          = some (i % input.length)) ∧
        (mn.toList ≠ [] →
          ((Counter.init input mn mx dr ml ad)._base_objs.get? i).map Counter_base.min
            = mn.toList.get? (i % mn.toList.length)) ∧
        (mx.toList ≠ [] →
          ((Counter.init input mn mx dr ml ad)._base_objs.get? i).map Counter_base.max
            = mx.toList.get? (i % mx.toList.length)) ∧
        (dr.toList ≠ [] →
          ((Counter.init input mn mx dr ml ad)._base_objs.get? i).map Counter_base.dir
            = dr.toList.get? (i % dr.toList.length)) ∧
        (ml.toList ≠ [] →
          ((Counter.init input mn mx dr ml ad)._base_objs.get? i).map Counter_base.mul
            = ml.toList.get? (i % ml.toList.length)) ∧
        (ad.toList ≠ [] →
          ((Counter.init input mn mx dr ml ad)._base_objs.get? i).map Counter_base.add
            = ad.toList.get? (i % ad.toList.length)))) ∧
    (∀ (input : List σ) (v : Arg α),
      ((Select.init input v)._base_objs.length
        = Nat.max input.length v.toList.length) ∧
      (∀ i, i < (Select.init input v)._base_objs.length →
        (((Select.init input v)._base_objs.get? i).map Select_base.input
          = some (i % input.length)) ∧
        (v.toList ≠ [] →
          ((Select.init input v)._base_objs.get? i).map Select_base.value
            = v.toList.get? (i % v.toList.length)))) := by
  refine ⟨fun input mn mx ml ad => ?_, fun input c ml ad => ?_,
    fun input fn ml ad => ?_, fun input tb dur ml ad => ?_,
    fun input mn mx dr ml ad => ?_, fun input v => ?_⟩
  · refine ⟨by simp [TrigRand.init, InputFader.init, lmaxOf], fun i hi => ?_⟩
    rw [init_base_objs_trigRand] at hi ⊢
    exact ⟨rangeMap_field_eq _ _ _ _ (fun j => rfl) i (by simpa using hi),
      fun h => rangeMap_field_wrap _ _ TrigRand_base.min mn.toList (fun j => rfl)
        i (by simpa using hi) h,
      fun h => rangeMap_field_wrap _ _ TrigRand_base.max mx.toList (fun j => rfl)
        i (by simpa using hi) h,
      fun h => rangeMap_field_wrap _ _ TrigRand_base.mul ml.toList (fun j => rfl)
        i (by simpa using hi) h,
      fun h => rangeMap_field_wrap _ _ TrigRand_base.add ad.toList (fun j => rfl)
        i (by simpa using hi) h⟩
  · refine ⟨by simp [TrigChoice.init, InputFader.init, lmaxOf], fun i hi => ?_⟩
    rw [init_base_objs_trigChoice] at hi ⊢
    exact ⟨rangeMap_field_eq _ _ _ _ (fun j => rfl) i (by simpa using hi),
      fun h => rangeMap_field_wrap _ _ TrigChoice_base.mul ml.toList (fun j => rfl)
        i (by simpa using hi) h,
      fun h => rangeMap_field_wrap _ _ TrigChoice_base.add ad.toList (fun j => rfl)
        i (by simpa using hi) h⟩
  · refine ⟨by simp [TrigFunc.init, InputFader.init, lmaxOf], fun i hi => ?_⟩
    rw [init_base_objs_trigFunc] at hi ⊢
    exact ⟨rangeMap_field_eq _ _ _ _ (fun j => rfl) i (by simpa using hi),
      fun h => rangeMap_field_wrap _ _ TrigFunc_base.function fn.toList (fun j => rfl)
        i (by simpa using hi) h⟩
  · refine ⟨by simp [TrigEnv.init, InputFader.init, lmaxOf], fun i hi => ?_⟩
    rw [init_base_objs_trigEnv] at hi ⊢
    exact ⟨rangeMap_field_eq _ _ _ _ (fun j => rfl) i (by simpa using hi),
      fun h => rangeMap_field_wrap _ _ TrigEnv_base.table tb.toList (fun j => rfl)
        i (by simpa using hi) h,
      fun h => rangeMap_field_wrap _ _ TrigEnv_base.dur dur.toList (fun j => rfl)
        i (by simpa using hi) h,
      fun h => rangeMap_field_wrap _ _ TrigEnv_base.mul ml.toList (fun j => rfl)
        i (by simpa using hi) h,
      fun h => rangeMap_field_wrap _ _ TrigEnv_base.add ad.toList (fun j => rfl)
        i (by simpa using hi) h⟩
  · refine ⟨by simp [Counter.init, InputFader.init, lmaxOf], fun i hi => ?_⟩
    rw [init_base_objs_counter] at hi ⊢
    exact ⟨rangeMap_field_eq _ _ _ _ (fun j => rfl) i (by simpa using hi),
      fun h => rangeMap_field_wrap _ _ Counter_base.min mn.toList (fun j => rfl)
        i (by simpa using hi) h,
      fun h => rangeMap_field_wrap _ _ Counter_base.max mx.toList (fun j => rfl)
        i (by simpa using hi) h,
      fun h => rangeMap_field_wrap _ _ Counter_base.dir dr.toList (fun j => rfl)
        i (by simpa using hi) h,
      fun h => rangeMap_field_wrap _ _ Counter_base.mul ml.toList (fun j => rfl)
        i (by simpa using hi) h,
      fun h => rangeMap_field_wrap _ _ Counter_base.add ad.toList (fun j => rfl)
        i (by simpa using hi) h⟩
  · refine ⟨by simp [Select.init, InputFader.init, lmaxOf], fun i hi => ?_⟩
    rw [init_base_objs_select] at hi ⊢
    exact ⟨rangeMap_field_eq _ _ _ _ (fun j => rfl) i (by simpa using hi),
      fun h => rangeMap_field_wrap _ _ Select_base.value v.toList (fun j => rfl)
        i (by simpa using hi) h⟩

/-- Claim C3, witness: a two-channel input with a three-element `min`
list yields three base objects, and channel 2 reads `min` element
`2 % 3`. -/
theorem claim_C3_witness :
    (2 < (TrigRand.init [true, false] (Arg.list [(3 : ℤ), 4, 5]) (Arg.scalar 9)
        (Arg.scalar 1) (Arg.scalar 0))._base_objs.length) ∧
    ((Arg.list [(3 : ℤ), 4, 5]).toList ≠ []) ∧
    (((TrigRand.init [true, false] (Arg.list [(3 : ℤ), 4, 5]) (Arg.scalar 9)
        (Arg.scalar 1) (Arg.scalar 0))._base_objs.get? 2).map TrigRand_base.min
      = (Arg.list [(3 : ℤ), 4, 5]).toList.get?
          (2 % (Arg.list [(3 : ℤ), 4, 5]).toList.length)) :=
  ⟨by decide, by decide,
    (((@claim_C3_channel_resolution Bool ℤ ℤ ℤ ℤ _ _ _).1 [true, false]
        (Arg.list [(3 : ℤ), 4, 5]) (Arg.scalar 9) (Arg.scalar 1) (Arg.scalar 0)).2 2
      (by decide)).2.1 (by decide)⟩

/-- Claim C1, counterexample: the claim fails as stated.  `TrigFunc`
accepts `mul` and `add` but forwards neither to any base object —
constructing it with `mul=5` and with `mul=9` yields identical units, so
no output scaling by `mul` can occur — and `Select`'s constructor does
not even accept a `mul` parameter. -/
theorem claim_C1_counterexample :
    (TrigFunc.init [true] (Arg.scalar (7 : ℤ)) (Arg.scalar (5 : ℤ)) (Arg.scalar 0)
      = TrigFunc.init [true] (Arg.scalar (7 : ℤ)) (Arg.scalar (9 : ℤ)) (Arg.scalar 0)) ∧
    ("mul" ∉ Select.srcParams.map Prod.fst) :=
  ⟨rfl, by decide⟩

/-- Claim C1, amended: `TrigRand`, `TrigChoice`, `TrigEnv` and `Counter`
accept `mul` and `add` and forward them, index-wrapped, to every
per-channel base object; `TrigFunc` accepts `mul` and `add` but discards
them (the unit it builds does not depend on them); `Select` accepts
neither. -/
theorem claim_C1_mul_add_forwarding {σ α γ τ φ : Type} [Inhabited α]
    [Inhabited τ] [Inhabited φ] :
    (∀ (input : List σ) (mn mx ml ad : Arg α) i,
      i < (TrigRand.init input mn mx ml ad)._base_objs.length →
      (ml.toList ≠ [] →
        ((TrigRand.init input mn mx ml ad)._base_objs.get? i).map TrigRand_base.mul
          = ml.toList.get? (i % ml.toList.length)) ∧
      (ad.toList ≠ [] →
        ((TrigRand.init input mn mx ml ad)._base_objs.get? i).map TrigRand_base.add
          = ad.toList.get? (i % ad.toList.length))) ∧
    (∀ (input : List σ) (c : List γ) (ml ad : Arg α) i,
      i < (TrigChoice.init input c ml ad)._base_objs.length →
      (ml.toList ≠ [] →
        ((TrigChoice.init input c ml ad)._base_objs.get? i).map TrigChoice_base.mul
          = ml.toList.get? (i % ml.toList.length)) ∧
      (ad.toList ≠ [] →
        ((TrigChoice.init input c ml ad)._base_objs.get? i).map TrigChoice_base.add
          = ad.toList.get? (i % ad.toList.length))) ∧
    (∀ (input : List σ) (tb : Arg τ) (dur ml ad : Arg α) i,
      i < (TrigEnv.init input tb dur ml ad)._base_objs.length →
      (ml.toList ≠ [] →
        ((TrigEnv.init input tb dur ml ad)._base_objs.get? i).map TrigEnv_base.mul
          = ml.toList.get? (i % ml.toList.length)) ∧
      (ad.toList ≠ [] →
        ((TrigEnv.init input tb dur ml ad)._base_objs.get? i).map TrigEnv_base.add
          = ad.toList.get? (i % ad.toList.length))) ∧
    (∀ (input : List σ) (mn mx dr ml ad : Arg α) i,
      i < (Counter.init input mn mx dr ml ad)._base_objs.length →
      (ml.toList ≠ [] →
        ((Counter.init input mn mx dr ml ad)._base_objs.get? i).map Counter_base.mul
          = ml.toList.get? (i % ml.toList.length)) ∧
      (ad.toList ≠ [] →
        ((Counter.init input mn mx dr ml ad)._base_objs.get? i).map Counter_base.add
          = ad.toList.get? (i % ad.toList.length))) ∧
    (∀ (input : List σ) (fn : Arg φ) (ml ad ml' ad' : Arg α),
      TrigFunc.init input fn ml ad = TrigFunc.init input fn ml' ad') ∧
    (("mul" ∉ Select.srcParams.map Prod.fst) ∧
     ("add" ∉ Select.srcParams.map Prod.fst)) := by
  refine ⟨fun input mn mx ml ad i hi => ?_, fun input c ml ad i hi => ?_,
    fun input tb dur ml ad i hi => ?_, fun input mn mx dr ml ad i hi => ?_,
    fun input fn ml ad ml' ad' => rfl, by decide, by decide⟩
  · rw [init_base_objs_trigRand] at hi ⊢
    exact ⟨fun h => rangeMap_field_wrap _ _ TrigRand_base.mul ml.toList
        (fun j => rfl) i (by simpa using hi) h,
      fun h => rangeMap_field_wrap _ _ TrigRand_base.add ad.toList
        (fun j => rfl) i (by simpa using hi) h⟩
  · rw [init_base_objs_trigChoice] at hi ⊢
    exact ⟨fun h => rangeMap_field_wrap _ _ TrigChoice_base.mul ml.toList
        (fun j => rfl) i (by simpa using hi) h,
      fun h => rangeMap_field_wrap _ _ TrigChoice_base.add ad.toList
        (fun j => rfl) i (by simpa using hi) h⟩
  · rw [init_base_objs_trigEnv] at hi ⊢
    exact ⟨fun h => rangeMap_field_wrap _ _ TrigEnv_base.mul ml.toList
        (fun j => rfl) i (by simpa using hi) h,
      fun h => rangeMap_field_wrap _ _ TrigEnv_base.add ad.toList
        (fun j => rfl) i (by simpa using hi) h⟩
  · rw [init_base_objs_counter] at hi ⊢
    exact ⟨fun h => rangeMap_field_wrap _ _ Counter_base.mul ml.toList
        (fun j => rfl) i (by simpa using hi) h,
      fun h => rangeMap_field_wrap _ _ Counter_base.add ad.toList
        (fun j => rfl) i (by simpa using hi) h⟩

/-- Claim C1, witness: a `TrigRand` built with `mul=[2,3]` over a
one-channel input holds `mul` element `1 % 2` in channel 1. -/
theorem claim_C1_witness :
    (1 < (TrigRand.init [true] (Arg.scalar (0 : ℤ)) (Arg.scalar 1)
        (Arg.list [2, 3]) (Arg.scalar 0))._base_objs.length) ∧
    ((Arg.list [(2 : ℤ), 3]).toList ≠ []) ∧
    (((TrigRand.init [true] (Arg.scalar (0 : ℤ)) (Arg.scalar 1)
        (Arg.list [2, 3]) (Arg.scalar 0))._base_objs.get? 1).map TrigRand_base.mul
      = (Arg.list [(2 : ℤ), 3]).toList.get?
          (1 % (Arg.list [(2 : ℤ), 3]).toList.length)) :=
  ⟨by decide, by decide,
    ((@claim_C1_mul_add_forwarding Bool ℤ ℤ ℤ ℤ _ _ _).1 [true]
        (Arg.scalar (0 : ℤ)) (Arg.scalar 1) (Arg.list [2, 3]) (Arg.scalar 0) 1
      (by decide)).1 (by decide)⟩

/-- Claim C6: TrigChoice's candidate sequence is replaced wholesale —
the constructor and `setChoice(x)` hand the entire sequence, unwrapped
and unsliced, to every per-channel base object, so all channels always
hold the same full choice sequence. -/
theorem claim_C6_choice_wholesale {σ γ α : Type} [Inhabited α] :
    (∀ (input : List σ) (c : List γ) (ml ad : Arg α),
      (TrigChoice.init input c ml ad)._base_objs.map TrigChoice_base.choice
        = List.replicate (TrigChoice.init input c ml ad)._base_objs.length c) ∧
    (∀ (u : TrigChoice σ γ α) (x : List γ),
      (u.setChoice x)._base_objs.map TrigChoice_base.choice
        = List.replicate u._base_objs.length x) := by
  constructor
  · intro input c ml ad
    rw [init_base_objs_trigChoice, List.map_map, List.length_map]
    have hc : (TrigChoice_base.choice ∘ fun i =>
        (⟨i % input.length, c, wrap ml.toList i, wrap ad.toList i⟩ :
          TrigChoice_base γ α)) = fun _ => c := rfl
    rw [hc, List.map_const']
  · intro u x
    show (u._base_objs.map fun o => { o with choice := x }).map TrigChoice_base.choice
      = List.replicate u._base_objs.length x
    rw [List.map_map]
    have hc : (TrigChoice_base.choice ∘ fun o : TrigChoice_base γ α =>
        { o with choice := x }) = fun _ => x := rfl
    rw [hc, List.map_const']

/-- Claim C10: `setTable(x)` (which is also the `table` property's
setter) stores `x` as the table attribute and rewrites each existing
base object in place, setting channel `i`'s table to the index-wrapped
element `wrap (x, i)` and touching nothing else — the base objects are
updated, not recreated, and their number is unchanged. -/
theorem claim_C10_setTable {σ τ α : Type} [Inhabited τ] [Inhabited α] :
    ∀ (u : TrigEnv σ τ α) (x : Arg τ),
      ((u.setTable x)._table = x) ∧
      ((u.setTable x).table = x) ∧
      ((u.setTable x)._base_objs.length = u._base_objs.length) ∧
      (∀ i, i < u._base_objs.length →
        (u.setTable x)._base_objs.get? i
          = (u._base_objs.get? i).map fun o => { o with table := wrap x.toList i }) := by
  intro u x
  refine ⟨rfl, rfl, by simp [TrigEnv.setTable, List.length_mapIdx], fun i hi => ?_⟩
  have h2 : i < (u.setTable x)._base_objs.length := by
    simpa [TrigEnv.setTable, List.length_mapIdx] using hi
  rw [List.get?_eq_get h2, List.get?_eq_get hi, Option.map_some']
  exact congrArg some (get_mapIdx_of_lt _ _ _ h2 hi)

/-- Claim C10, witness: replacing the table of a concrete one-channel
`TrigEnv` rewrites channel 0 in place with the wrapped new table. -/
theorem claim_C10_witness :
    (0 < (TrigEnv.init [true] (Arg.scalar (3 : ℤ)) (Arg.scalar (1 : ℤ))
        (Arg.scalar 1) (Arg.scalar 0))._base_objs.length) ∧
    (((TrigEnv.init [true] (Arg.scalar (3 : ℤ)) (Arg.scalar (1 : ℤ))
          (Arg.scalar 1) (Arg.scalar 0)).setTable (Arg.list [7, 8]))._base_objs.get? 0
      = ((TrigEnv.init [true] (Arg.scalar (3 : ℤ)) (Arg.scalar (1 : ℤ))
          (Arg.scalar 1) (Arg.scalar 0))._base_objs.get? 0).map
        fun o => { o with table := wrap (Arg.list [(7 : ℤ), 8]).toList 0 }) :=
  ⟨by decide,
    (claim_C10_setTable (TrigEnv.init [true] (Arg.scalar (3 : ℤ))
        (Arg.scalar (1 : ℤ)) (Arg.scalar 1) (Arg.scalar 0))
      (Arg.list [(7 : ℤ), 8])).2.2.2 0 (by decide)⟩

/-- Claim C7: calling any parameter setter with the unit's own current
value leaves the unit's entire state — stored attributes and every base
object — unchanged, so the output of the next tick cannot differ.  The
hypothesis is the dispatch invariant `paramSync`, which holds of every
reachable unit: the first six conjuncts show every construction
establishes it and the next seven show every setter preserves it; the
last six are the idempotence facts themselves. -/
theorem claim_C7_setter_idempotence {σ α γ τ φ : Type} [Inhabited α]
    [Inhabited τ] [Inhabited φ] :
    (∀ (input : List σ) (mn mx ml ad : Arg α),
      (TrigRand.init input mn mx ml ad).paramSync) ∧
    (∀ (input : List σ) (c : List γ) (ml ad : Arg α),
      (TrigChoice.init input c ml ad).paramSync) ∧
    (∀ (input : List σ) (fn : Arg φ) (ml ad : Arg α),
      (TrigFunc.init input fn ml ad).paramSync) ∧
    (∀ (input : List σ) (tb : Arg τ) (dur ml ad : Arg α),
      (TrigEnv.init input tb dur ml ad).paramSync) ∧
    (∀ (input : List σ) (mn mx dr ml ad : Arg α),
      (Counter.init input mn mx dr ml ad).paramSync) ∧
    (∀ (input : List σ) (v : Arg α), (Select.init input v).paramSync) ∧
    (∀ (u : TrigRand σ α) (x : Arg α), u.paramSync →
      (u.setMin x).paramSync ∧ (u.setMax x).paramSync) ∧
    (∀ (u : TrigChoice σ γ α) (x : List γ), u.paramSync →
      (u.setChoice x).paramSync) ∧
    (∀ (u : TrigFunc σ φ) (x : Arg φ), u.paramSync →
      (u.setFunction x).paramSync) ∧
    (∀ (u : TrigEnv σ τ α) (x : Arg τ), u.paramSync →
      (u.setTable x).paramSync) ∧
    (∀ (u : TrigEnv σ τ α) (x : Arg α), u.paramSync →
      (u.setDur x).paramSync) ∧
    (∀ (u : Counter σ α) (x : Arg α), u.paramSync →
      (u.setMin x).paramSync ∧ (u.setMax x).paramSync ∧ (u.setDir x).paramSync) ∧
    (∀ (u : Select σ α) (x : Arg α), u.paramSync →
      (u.setValue x).paramSync) ∧
    (∀ (u : TrigRand σ α), u.paramSync →
      (u.setMin u.min = u) ∧ (u.setMax u.max = u)) ∧
    (∀ (u : TrigChoice σ γ α), u.paramSync → u.setChoice u.choice = u) ∧
    (∀ (u : TrigFunc σ φ), u.paramSync → u.setFunction u.function = u) ∧
    (∀ (u : TrigEnv σ τ α), u.paramSync →
      (u.setTable u.table = u) ∧ (u.setDur u.dur = u)) ∧
    (∀ (u : Counter σ α), u.paramSync →
      (u.setMin u.min = u) ∧ (u.setMax u.max = u) ∧ (u.setDir u.dir = u)) ∧
    (∀ (u : Select σ α), u.paramSync → u.setValue u.value = u) := by
  refine ⟨?_, ?_, ?_, ?_, ?_, ?_, ?_, ?_, ?_, ?_, ?_, ?_, ?_, ?_, ?_, ?_, ?_, ?_, ?_⟩
  · intro input mn mx ml ad i h
    simp only [TrigRand.init] at h ⊢
    rw [get_range_map]
    exact ⟨rfl, rfl⟩
  · intro input c ml ad i h
    simp only [TrigChoice.init] at h ⊢
    rw [get_range_map]
  · intro input fn ml ad i h
    simp only [TrigFunc.init] at h ⊢
    rw [get_range_map]
  · intro input tb dur ml ad i h
    simp only [TrigEnv.init] at h ⊢
    rw [get_range_map]
    exact ⟨rfl, rfl⟩
  · intro input mn mx dr ml ad i h
    simp only [Counter.init] at h ⊢
    rw [get_range_map]
    exact ⟨rfl, rfl, rfl⟩
  · intro input v i h
    simp only [Select.init] at h ⊢
    rw [get_range_map]
  · intro u x hs
    constructor <;> intro i h <;> simp only [TrigRand.setMin, TrigRand.setMax] at h ⊢
    · have h' : i < u._base_objs.length := by simpa using h
      rw [get_mapIdx_of_lt _ _ _ h h']
      exact ⟨rfl, (hs i h').2⟩
    · have h' : i < u._base_objs.length := by simpa using h
      rw [get_mapIdx_of_lt _ _ _ h h']
      exact ⟨(hs i h').1, rfl⟩
  · intro u x hs i h
    simp only [TrigChoice.setChoice] at h ⊢
    have h' : i < u._base_objs.length := by simpa using h
    rw [List.get_map]
  · intro u x hs i h
    simp only [TrigFunc.setFunction] at h ⊢
    have h' : i < u._base_objs.length := by simpa using h
    rw [get_mapIdx_of_lt _ _ _ h h']
  · intro u x hs i h
    simp only [TrigEnv.setTable] at h ⊢
    have h' : i < u._base_objs.length := by simpa using h
    rw [get_mapIdx_of_lt _ _ _ h h']
    exact ⟨rfl, (hs i h').2⟩
  · intro u x hs i h
    simp only [TrigEnv.setDur] at h ⊢
    have h' : i < u._base_objs.length := by simpa using h
    rw [get_mapIdx_of_lt _ _ _ h h']
    exact ⟨(hs i h').1, rfl⟩
  · intro u x hs
    refine ⟨?_, ?_, ?_⟩ <;> intro i h <;>
      simp only [Counter.setMin, Counter.setMax, Counter.setDir] at h ⊢
    · have h' : i < u._base_objs.length := by simpa using h
      rw [get_mapIdx_of_lt _ _ _ h h']
      exact ⟨rfl, (hs i h').2.1, (hs i h').2.2⟩
    · have h' : i < u._base_objs.length := by simpa using h
      rw [get_mapIdx_of_lt _ _ _ h h']
      exact ⟨(hs i h').1, rfl, (hs i h').2.2⟩
    · have h' : i < u._base_objs.length := by simpa using h
      rw [get_mapIdx_of_lt _ _ _ h h']
      exact ⟨(hs i h').1, (hs i h').2.1, rfl⟩
  · intro u x hs i h
    simp only [Select.setValue] at h ⊢
    have h' : i < u._base_objs.length := by simpa using h
    rw [get_mapIdx_of_lt _ _ _ h h']
  · intro u hs
    constructor
    · have hb : (u._base_objs.mapIdx fun i o =>
          { o with min := wrap u._min.toList i }) = u._base_objs := by
        apply mapIdx_eq_self_of_fix
        intro i h
        rw [← (hs i h).1]
      simp only [TrigRand.setMin, TrigRand.min, hb]
    · have hb : (u._base_objs.mapIdx fun i o =>
          { o with max := wrap u._max.toList i }) = u._base_objs := by
        apply mapIdx_eq_self_of_fix
        intro i h
        rw [← (hs i h).2]
      simp only [TrigRand.setMax, TrigRand.max, hb]
  · intro u hs
    have hb : (u._base_objs.map fun o => { o with choice := u._choice })
        = u._base_objs := by
      apply map_eq_self_of_fix
      intro i h
      rw [← hs i h]
    simp only [TrigChoice.setChoice, TrigChoice.choice, hb]
  · intro u hs
    have hb : (u._base_objs.mapIdx fun i o =>
        { o with function := wrap u._function.toList i }) = u._base_objs := by
      apply mapIdx_eq_self_of_fix
      intro i h
      rw [← hs i h]
    simp only [TrigFunc.setFunction, TrigFunc.function, hb]
  · intro u hs
    constructor
    · have hb : (u._base_objs.mapIdx fun i o =>
          { o with table := wrap u._table.toList i }) = u._base_objs := by
        apply mapIdx_eq_self_of_fix
        intro i h
        rw [← (hs i h).1]
      simp only [TrigEnv.setTable, TrigEnv.table, hb]
    · have hb : (u._base_objs.mapIdx fun i o =>
          { o with dur := wrap u._dur.toList i }) = u._base_objs := by
        apply mapIdx_eq_self_of_fix
        intro i h
        rw [← (hs i h).2]
      simp only [TrigEnv.setDur, TrigEnv.dur, hb]
  · intro u hs
    refine ⟨?_, ?_, ?_⟩
    · have hb : (u._base_objs.mapIdx fun i o =>
          { o with min := wrap u._min.toList i }) = u._base_objs := by
        apply mapIdx_eq_self_of_fix
        intro i h
        rw [← (hs i h).1]
      simp only [Counter.setMin, Counter.min, hb]
    · have hb : (u._base_objs.mapIdx fun i o =>
          { o with max := wrap u._max.toList i }) = u._base_objs := by
        apply mapIdx_eq_self_of_fix
        intro i h
        rw [← (hs i h).2.1]
      simp only [Counter.setMax, Counter.max, hb]
    · have hb : (u._base_objs.mapIdx fun i o =>
          { o with dir := wrap u._dir.toList i }) = u._base_objs := by
        apply mapIdx_eq_self_of_fix
        intro i h
        rw [← (hs i h).2.2]
      simp only [Counter.setDir, Counter.dir, hb]
  · intro u hs
    have hb : (u._base_objs.mapIdx fun i o =>
        { o with value := wrap u._value.toList i }) = u._base_objs := by
      apply mapIdx_eq_self_of_fix
      intro i h
      rw [← hs i h]
    simp only [Select.setValue, Select.value, hb]

/-- Claim C7, witness: a concrete `TrigRand` satisfies the dispatch
invariant, and re-setting its `min` to its current `min` is a no-op. -/
theorem claim_C7_witness :
    (TrigRand.init [true] (Arg.scalar (5 : ℤ)) (Arg.scalar 9) (Arg.scalar 1)
      (Arg.scalar 0)).paramSync ∧
    ((TrigRand.init [true] (Arg.scalar (5 : ℤ)) (Arg.scalar 9) (Arg.scalar 1)
        (Arg.scalar 0)).setMin
      (TrigRand.init [true] (Arg.scalar (5 : ℤ)) (Arg.scalar 9) (Arg.scalar 1)
        (Arg.scalar 0)).min
      = TrigRand.init [true] (Arg.scalar (5 : ℤ)) (Arg.scalar 9) (Arg.scalar 1)
        (Arg.scalar 0)) :=
  ⟨by simp only [TrigRand.paramSync]; decide,
    ((@claim_C7_setter_idempotence Bool ℤ ℤ ℤ ℤ _ _ _).2.2.2.2.2.2.2.2.2.2.2.2.2.1
      (TrigRand.init [true] (Arg.scalar (5 : ℤ)) (Arg.scalar 9) (Arg.scalar 1)
        (Arg.scalar 0))
      (by simp only [TrigRand.paramSync]; decide)).1⟩

end PyoTrigger
